import Mathlib

/-!
Shallow embedding of `aphrodite/inputs/preprocess.py` (class `InputPreprocessor`),
the prompt-normalization pipeline of the aphrodite-engine inference server.

The pipeline's own logic is translated directly from the source file.  Its
collaborators (the prompt data model of `inputs/data.py` / `inputs/parse.py`,
the tokenizer group, the model configuration, and the adapter request objects)
are not part of the provided sources; they are modelled from the specification's
data model and external-interface sections, as noted on each definition.

Fallible code (Python `raise` / failing `assert`) is embedded as `Except`;
the suspendable (`async`) variants are embedded as sequential functions with
the same control flow, since the tokenizer collaborator's blocking and
suspendable `encode` forms are contractually identical and no other effect
is observable.
-/

namespace Preprocess

/-- Modelled from the spec: an opaque side-channel (multi-modal) payload.
Only its identity and presence/absence matter to the pipeline, so it is an
opaque inhabited type with decidable equality. -/
def MultiModalDataDict : Type := List (String × Nat)

instance : DecidableEq MultiModalDataDict := by
  unfold MultiModalDataDict; infer_instance

/-- Modelled from the spec: an opaque processor-option mapping
(`mm_processor_kwargs : Dict[str, Any]`); `[]` plays the role of the empty
dict `{}` used as a default. -/
def MmKwargs : Type := List (String × Nat)

instance : DecidableEq MmKwargs := by
  unfold MmKwargs; infer_instance

/-- The empty processor-option mapping `{}`. -/
def emptyKwargs : MmKwargs := ([] : List (String × Nat))

/-- Modelled from the spec: a LoRA selector is an opaque identity, passed
through to the tokenizer lookup. -/
structure LoRARequest where
  lora_id : Nat
deriving DecidableEq

/-- Modelled from the spec: a prompt-adapter selector exposing its configured
virtual-token count (`prompt_adapter_num_virtual_tokens : integer >= 0`). -/
structure PromptAdapterRequest where
  prompt_adapter_num_virtual_tokens : Nat
deriving DecidableEq

/-- Modelled from the spec: the nested HuggingFace configuration object from
which `decoder_start_token_id` (nullable integer) is read via `getattr`. -/
structure HFConfig where
  decoder_start_token_id : Option Int
deriving DecidableEq

/-- Modelled from the spec: the model-configuration collaborator, exposing
`is_encoder_decoder_model` and an optional nested `hf_config`. -/
structure ModelConfig where
  is_encoder_decoder_model : Bool
  hf_config : Option HFConfig
deriving DecidableEq

/-- Modelled from the spec: the tokenizer-group collaborator.  `encode` covers
both the blocking and the suspendable form, which are contractually identical
(`encode(text, request_id, adapter_context)`, "available in blocking and
suspendable forms with identical results"); `bosTokenId` / `eosTokenId` embed
`get_lora_tokenizer(lora_request).bos_token_id` / `.eos_token_id`. -/
structure BaseTokenizerGroup where
  encode : String → String → Option LoRARequest → List Int
  bosTokenId : Option LoRARequest → Option Int
  eosTokenId : Option LoRARequest → Option Int

/-- Modelled from the spec: a classified singleton prompt, the closed tagged
union over plain text (`str`), pre-tokenized ids (`TokensPrompt`), and text
with metadata (`TextPrompt`).  `parse_singleton_prompt`'s classification is
built into the constructors; absent optional mapping keys are `none`. -/
inductive SingletonPrompt where
  | str (s : String)
  | tokens (prompt_token_ids : List Int) (multi_modal_data : Option MultiModalDataDict)
      (mm_processor_kwargs : Option MmKwargs)
  | text (prompt : String) (multi_modal_data : Option MultiModalDataDict)
      (mm_processor_kwargs : Option MmKwargs)
deriving DecidableEq

/-- Modelled from the spec: a caller-supplied prompt, either a singleton or an
explicit encoder/decoder pair whose decoder side may be absent and whose
optional `mm_processor_kwargs` mapping key may be missing (`none`). -/
inductive PromptType where
  | singleton (p : SingletonPrompt)
  | explicitPair (encoder_prompt : SingletonPrompt)
      (decoder_prompt : Option SingletonPrompt)
      (mm_processor_kwargs : Option MmKwargs)
deriving DecidableEq

/-- Modelled from the spec: `is_explicit_encoder_decoder_prompt` from
`inputs/parse.py` — detection of the explicit pair form. -/
def is_explicit_encoder_decoder_prompt : PromptType → Bool
  | .explicitPair _ _ _ => true
  | .singleton _ => false

/-- `PromptComponents = Tuple[Optional[str], List[int],
Optional[MultiModalDataDict], Optional[Dict[str, Any]]]`. -/
abbrev PromptComponents :=
  Option String × List Int × Option MultiModalDataDict × Option MmKwargs

/-- `DecoderPromptComponents = Tuple[Optional[str], Optional[List[int]],
Optional[MultiModalDataDict], Optional[Dict[str, Any]]]`. -/
abbrev DecoderPromptComponents :=
  Option String × Option (List Int) × Option MultiModalDataDict × Option MmKwargs

/-- Modelled from the spec: `DecoderOnlyInputs` from `inputs/data.py`.  The
token-id field is embedded as an `Option` so that the spec's non-nullness
invariant on the returned object is a provable property rather than a typing
artifact. -/
structure DecoderOnlyInputs where
  prompt_token_ids : Option (List Int)
  prompt : Option String
  multi_modal_data : Option MultiModalDataDict
  mm_processor_kwargs : Option MmKwargs
deriving DecidableEq

/-- Modelled from the spec: `EncoderDecoderInputs` from `inputs/data.py`.
Token-id fields are `Option` for the same reason as in `DecoderOnlyInputs`. -/
structure EncoderDecoderInputs where
  prompt_token_ids : Option (List Int)
  prompt : Option String
  multi_modal_data : Option MultiModalDataDict
  mm_processor_kwargs : MmKwargs
  encoder_prompt_token_ids : Option (List Int)
  encoder_prompt : Option String
  encoder_multi_modal_data : Option MultiModalDataDict
deriving DecidableEq

/-- `Union[DecoderOnlyInputs, EncoderDecoderInputs]`, the return type of
`preprocess`. -/
inductive LLMInputs where
  | decoderOnly (i : DecoderOnlyInputs)
  | encoderDecoder (i : EncoderDecoderInputs)
deriving DecidableEq

/-- The typed failure modes of the pipeline (spec §7), plus the two Python
runtime errors that the suspendable encoder/decoder path can raise
(`UnboundLocalError` on an unassigned `mm_processor_kwargs` local, `KeyError`
on `prompt["mm_processor_kwargs"]`). -/
inductive PreprocessError where
  | TokenizerUnavailable
  | IncompatiblePromptShape
  | UnsupportedMultiModalDecoderInput
  | MissingBosToken
  | MissingDecoderStartToken
  | UnboundLocalMmKwargs
  | KeyErrorMmKwargs
deriving DecidableEq

/-- The state of an `InputPreprocessor`: a model config and an optional
tokenizer group (`None` when `skip_tokenizer_init` was set). -/
structure InputPreprocessor where
  model_config : ModelConfig
  tokenizer : Option BaseTokenizerGroup

/-- `InputPreprocessor.is_encoder_decoder_model`. -/
def is_encoder_decoder_model (pre : InputPreprocessor) : Bool :=
  pre.model_config.is_encoder_decoder_model

/-- `InputPreprocessor.get_tokenizer_group`: raises `ValueError` ("You cannot
pass text prompts when `skip_tokenizer_init` is True") when no tokenizer is
configured. -/
def get_tokenizer_group (pre : InputPreprocessor) :
    Except PreprocessError BaseTokenizerGroup :=
  match pre.tokenizer with
  | none => .error .TokenizerUnavailable
  | some tok => .ok tok

/-- `InputPreprocessor.get_bos_token_id`: `None` (with a warning) when the
tokenizer is not initialized, else the LoRA tokenizer's `bos_token_id`. -/
def get_bos_token_id (pre : InputPreprocessor)
    (lora_request : Option LoRARequest) : Option Int :=
  match pre.tokenizer with
  | none => none
  | some tok => tok.bosTokenId lora_request

/-- `InputPreprocessor.get_eos_token_id`. -/
def get_eos_token_id (pre : InputPreprocessor)
    (lora_request : Option LoRARequest) : Option Int :=
  match pre.tokenizer with
  | none => none
  | some tok => tok.eosTokenId lora_request

/-- `InputPreprocessor.get_decoder_start_token_id`: `None` for a
non-encoder/decoder model or a missing `hf_config`; otherwise the configured
`decoder_start_token_id`, falling back on the BOS token id when absent.
(The source's `self.model_config is None` guard cannot fire here: the
constructor annotates `model_config` as non-optional.) -/
def get_decoder_start_token_id (pre : InputPreprocessor) : Option Int :=
  if ¬ is_encoder_decoder_model pre then
    none
  else
    match pre.model_config.hf_config with
    | none => none
    | some hf =>
      match hf.decoder_start_token_id with
      | some d => some d
      | none => get_bos_token_id pre none

/-- `InputPreprocessor._get_default_enc_dec_decoder_prompt`: the default
decoder prompt `[bos_token_id]`; the `assert bos_token_id is not None` is a
failure. -/
def get_default_enc_dec_decoder_prompt (pre : InputPreprocessor) :
    Except PreprocessError (List Int) :=
  match get_bos_token_id pre none with
  | none => .error .MissingBosToken
  | some bos => .ok [bos]

/-- `InputPreprocessor._prepare_decoder_input_ids_for_generation`: resolve the
decoder-start token id (failing `assert` when unresolvable), default a `None`
decoder prompt to `[BOS]`, and when `force_bos` holds prepend the
decoder-start id unless the sequence already starts with it. -/
def prepare_decoder_input_ids_for_generation (pre : InputPreprocessor)
    (decoder_input_ids : Option (List Int)) (force_bos : Bool) :
    Except PreprocessError (List Int) :=
  match get_decoder_start_token_id pre with
  | none => .error .MissingDecoderStartToken
  | some decoder_start_token_id =>
    let defaulted : Except PreprocessError (List Int) :=
      match decoder_input_ids with
      | none => get_default_enc_dec_decoder_prompt pre
      | some ids => .ok ids
    match defaulted with
    | .error e => .error e
    | .ok ids =>
      if force_bos &&
          (ids.length == 0 || ids.head? != some decoder_start_token_id) then
        .ok (decoder_start_token_id :: ids)
      else
        .ok ids

/-- `InputPreprocessor._apply_prompt_adapter`: prepend
`prompt_adapter_num_virtual_tokens` zero placeholders when a prompt-adapter
request is attached. -/
def apply_prompt_adapter (prompt_token_ids : List Int)
    (prompt_adapter_request : Option PromptAdapterRequest) : List Int :=
  match prompt_adapter_request with
  | some req =>
      List.replicate req.prompt_adapter_num_virtual_tokens 0 ++ prompt_token_ids
  | none => prompt_token_ids

/-- `InputPreprocessor._tokenize_prompt`: look up the tokenizer group (failing
when none is configured) and encode the text. -/
def tokenize_prompt (pre : InputPreprocessor) (prompt : String)
    (request_id : String) (lora_request : Option LoRARequest) :
    Except PreprocessError (List Int) :=
  match get_tokenizer_group pre with
  | .error e => .error e
  | .ok tok => .ok (tok.encode request_id prompt lora_request)

/-- `InputPreprocessor._tokenize_prompt_async`: identical control flow; the
collaborator's `encode_async` is contractually identical to `encode`. -/
def tokenize_prompt_async (pre : InputPreprocessor) (prompt : String)
    (request_id : String) (lora_request : Option LoRARequest) :
    Except PreprocessError (List Int) :=
  match get_tokenizer_group pre with
  | .error e => .error e
  | .ok tok => .ok (tok.encode request_id prompt lora_request)

/-- `InputPreprocessor._extract_prompt_components`: classify the singleton
prompt and either tokenize its text or pass its token ids through. -/
def extract_prompt_components (pre : InputPreprocessor)
    (prompt : SingletonPrompt) (request_id : String)
    (lora_request : Option LoRARequest) :
    Except PreprocessError PromptComponents :=
  match prompt with
  | .str s =>
      match tokenize_prompt pre s request_id lora_request with
      | .error e => .error e
      | .ok prompt_token_ids => .ok (some s, prompt_token_ids, none, none)
  | .tokens prompt_token_ids multi_modal_data mm_processor_kwargs =>
      .ok (none, prompt_token_ids, multi_modal_data, mm_processor_kwargs)
  | .text t multi_modal_data mm_processor_kwargs =>
      match tokenize_prompt pre t request_id lora_request with
      | .error e => .error e
      | .ok prompt_token_ids =>
          .ok (some t, prompt_token_ids, multi_modal_data, mm_processor_kwargs)

/-- `InputPreprocessor._extract_prompt_components_async`: same classification,
tokenizing through the suspendable gateway call. -/
def extract_prompt_components_async (pre : InputPreprocessor)
    (prompt : SingletonPrompt) (request_id : String)
    (lora_request : Option LoRARequest) :
    Except PreprocessError PromptComponents :=
  match prompt with
  | .str s =>
      match tokenize_prompt_async pre s request_id lora_request with
      | .error e => .error e
      | .ok prompt_token_ids => .ok (some s, prompt_token_ids, none, none)
  | .tokens prompt_token_ids multi_modal_data mm_processor_kwargs =>
      .ok (none, prompt_token_ids, multi_modal_data, mm_processor_kwargs)
  | .text t multi_modal_data mm_processor_kwargs =>
      match tokenize_prompt_async pre t request_id lora_request with
      | .error e => .error e
      | .ok prompt_token_ids =>
          .ok (some t, prompt_token_ids, multi_modal_data, mm_processor_kwargs)

/-- `InputPreprocessor._build_enc_dec_llm_inputs`: reject decoder-side
multi-modal data, synthesize the decoder token ids with `force_bos` computed
from both sides' multi-modal presence, and package both sides. -/
def build_enc_dec_llm_inputs (pre : InputPreprocessor)
    (encoder_comps : PromptComponents)
    (decoder_comps : DecoderPromptComponents)
    (mm_processor_kwargs : MmKwargs) :
    Except PreprocessError EncoderDecoderInputs :=
  match encoder_comps, decoder_comps with
  | (encoder_prompt, encoder_prompt_ids, encoder_mm_data, _),
    (decoder_prompt, decoder_prompt_ids, decoder_mm_data, _) =>
    if decoder_mm_data.isSome then
      .error .UnsupportedMultiModalDecoderInput
    else
      match prepare_decoder_input_ids_for_generation pre decoder_prompt_ids
          (encoder_mm_data.isNone && decoder_mm_data.isNone) with
      | .error e => .error e
      | .ok dec_ids =>
          .ok { prompt_token_ids := some dec_ids
                prompt := decoder_prompt
                multi_modal_data := decoder_mm_data
                mm_processor_kwargs := mm_processor_kwargs
                encoder_prompt_token_ids := some encoder_prompt_ids
                encoder_prompt := encoder_prompt
                encoder_multi_modal_data := encoder_mm_data }

/-- `InputPreprocessor._process_encoder_decoder_prompt` (blocking): for an
explicit pair, extract both sides (decoder components all-`None` when the
decoder prompt is absent) and read the pair's `mm_processor_kwargs` with
`.get(..., {})`; for a singleton, extract it as the encoder side and reuse
its non-null processor options, defaulting to `{}`. -/
def process_encoder_decoder_prompt (pre : InputPreprocessor)
    (prompt : PromptType) (request_id : String) :
    Except PreprocessError EncoderDecoderInputs :=
  match prompt with
  | .explicitPair enc dec pair_kwargs =>
      match extract_prompt_components pre enc request_id none with
      | .error e => .error e
      | .ok encoder_comps =>
        let extracted_dec : Except PreprocessError DecoderPromptComponents :=
          match dec with
          | none => .ok (none, none, none, none)
          | some decoder_input =>
              match extract_prompt_components pre decoder_input request_id
                  none with
              | .error e => .error e
              | .ok (t, ids, mm, kw) => .ok (t, some ids, mm, kw)
        match extracted_dec with
        | .error e => .error e
        | .ok decoder_comps =>
            build_enc_dec_llm_inputs pre encoder_comps decoder_comps
              (pair_kwargs.getD emptyKwargs)
  | .singleton p =>
      match extract_prompt_components pre p request_id none with
      | .error e => .error e
      | .ok encoder_comps =>
          build_enc_dec_llm_inputs pre encoder_comps (none, none, none, none)
            ((encoder_comps.2.2.2).getD emptyKwargs)

/-- `InputPreprocessor._process_encoder_decoder_prompt_async` (suspendable):
same dual extraction (joined concurrently in the source), but the pair branch
assigns the local `mm_processor_kwargs` only when the decoder prompt is
present (so the absent-decoder path hits an `UnboundLocalError` at the final
call) and reads it by direct subscription `prompt["mm_processor_kwargs"]`
(a `KeyError` when the mapping key is missing). -/
def process_encoder_decoder_prompt_async (pre : InputPreprocessor)
    (prompt : PromptType) (request_id : String) :
    Except PreprocessError EncoderDecoderInputs :=
  match prompt with
  | .explicitPair enc dec pair_kwargs =>
      match dec with
      | none =>
          match extract_prompt_components_async pre enc request_id none with
          | .error e => .error e
          | .ok _encoder_comps => .error .UnboundLocalMmKwargs
      | some decoder_input =>
          match extract_prompt_components_async pre enc request_id none with
          | .error e => .error e
          | .ok encoder_comps =>
            match extract_prompt_components_async pre decoder_input request_id
                none with
            | .error e => .error e
            | .ok (t, ids, mm, kw) =>
              match pair_kwargs with
              | none => .error .KeyErrorMmKwargs
              | some kwargs =>
                  build_enc_dec_llm_inputs pre encoder_comps
                    (t, some ids, mm, kw) kwargs
  | .singleton p =>
      match extract_prompt_components_async pre p request_id none with
      | .error e => .error e
      | .ok encoder_comps =>
          build_enc_dec_llm_inputs pre encoder_comps (none, none, none, none)
            ((encoder_comps.2.2.2).getD emptyKwargs)

/-- `InputPreprocessor._build_decoder_only_llm_inputs`: splice adapter
placeholder tokens and package the components. -/
def build_decoder_only_llm_inputs (prompt_comps : PromptComponents)
    (prompt_adapter_request : Option PromptAdapterRequest) :
    DecoderOnlyInputs :=
  let (prompt, prompt_token_ids, multi_modal_data, mm_processor_kwargs) :=
    prompt_comps
  { prompt_token_ids :=
      some (apply_prompt_adapter prompt_token_ids prompt_adapter_request)
    prompt := prompt
    multi_modal_data := multi_modal_data
    mm_processor_kwargs := mm_processor_kwargs }

/-- `InputPreprocessor._process_decoder_only_prompt` (blocking). -/
def process_decoder_only_prompt (pre : InputPreprocessor)
    (prompt : SingletonPrompt) (request_id : String)
    (lora_request : Option LoRARequest)
    (prompt_adapter_request : Option PromptAdapterRequest) :
    Except PreprocessError DecoderOnlyInputs :=
  match extract_prompt_components pre prompt request_id lora_request with
  | .error e => .error e
  | .ok prompt_comps =>
      .ok (build_decoder_only_llm_inputs prompt_comps prompt_adapter_request)

/-- `InputPreprocessor._process_decoder_only_prompt_async` (suspendable). -/
def process_decoder_only_prompt_async (pre : InputPreprocessor)
    (prompt : SingletonPrompt) (request_id : String)
    (lora_request : Option LoRARequest)
    (prompt_adapter_request : Option PromptAdapterRequest) :
    Except PreprocessError DecoderOnlyInputs :=
  match extract_prompt_components_async pre prompt request_id lora_request with
  | .error e => .error e
  | .ok prompt_comps =>
      .ok (build_decoder_only_llm_inputs prompt_comps prompt_adapter_request)

/-- `InputPreprocessor.preprocess` (blocking entry point): encoder/decoder
models route every prompt through the encoder/decoder path (without the LoRA
or prompt-adapter arguments); decoder-only models reject explicit pairs and
route singletons through the decoder-only path. -/
def preprocess (pre : InputPreprocessor) (prompt : PromptType)
    (request_id : String) (lora_request : Option LoRARequest)
    (prompt_adapter_request : Option PromptAdapterRequest) :
    Except PreprocessError LLMInputs :=
  if is_encoder_decoder_model pre then
    match process_encoder_decoder_prompt pre prompt request_id with
    | .error e => .error e
    | .ok inputs => .ok (.encoderDecoder inputs)
  else if is_explicit_encoder_decoder_prompt prompt then
    .error .IncompatiblePromptShape
  else
    match prompt with
    | .singleton p =>
        match process_decoder_only_prompt pre p request_id lora_request
            prompt_adapter_request with
        | .error e => .error e
        | .ok inputs => .ok (.decoderOnly inputs)
    | .explicitPair _ _ _ => .error .IncompatiblePromptShape

/-- `InputPreprocessor.preprocess_async` (suspendable entry point). -/
def preprocess_async (pre : InputPreprocessor) (prompt : PromptType)
    (request_id : String) (lora_request : Option LoRARequest)
    (prompt_adapter_request : Option PromptAdapterRequest) :
    Except PreprocessError LLMInputs :=
  if is_encoder_decoder_model pre then
    match process_encoder_decoder_prompt_async pre prompt request_id with
    | .error e => .error e
    | .ok inputs => .ok (.encoderDecoder inputs)
  else if is_explicit_encoder_decoder_prompt prompt then
    .error .IncompatiblePromptShape
  else
    match prompt with
    | .singleton p =>
        match process_decoder_only_prompt_async pre p request_id lora_request
            prompt_adapter_request with
        | .error e => .error e
        | .ok inputs => .ok (.decoderOnly inputs)
    | .explicitPair _ _ _ => .error .IncompatiblePromptShape

/-! ## Concrete fixtures used by witnesses and counterexamples -/

/-- A concrete tokenizer group: every text encodes to `[11]`, the BOS token id
is `3` and the EOS token id is `4`, for every LoRA selector. -/
def tokBos3 : BaseTokenizerGroup :=
  { encode := fun _ _ _ => [11]
    bosTokenId := fun _ => some 3
    eosTokenId := fun _ => some 4 }

/-- A concrete encoder/decoder preprocessor whose configuration carries
`decoder_start_token_id = 7`, over `tokBos3` (BOS = 3). -/
def preEncDec7 : InputPreprocessor :=
  { model_config := { is_encoder_decoder_model := true
                      hf_config := some { decoder_start_token_id := some 7 } }
    tokenizer := some tokBos3 }

/-- A concrete encoder/decoder preprocessor whose configuration carries no
`decoder_start_token_id`, so resolution falls back on BOS = 3. -/
def preEncDecNoStart : InputPreprocessor :=
  { model_config := { is_encoder_decoder_model := true
                      hf_config := some { decoder_start_token_id := none } }
    tokenizer := some tokBos3 }

/-- A concrete encoder/decoder preprocessor whose configuration carries
`decoder_start_token_id = 5`, with no tokenizer (none is needed to resolve
a configured decoder-start id). -/
def preDec5 : InputPreprocessor :=
  { model_config := { is_encoder_decoder_model := true
                      hf_config := some { decoder_start_token_id := some 5 } }
    tokenizer := none }

/-- A concrete decoder-only preprocessor over `tokBos3`. -/
def preDecOnly : InputPreprocessor :=
  { model_config := { is_encoder_decoder_model := false
                      hf_config := some { decoder_start_token_id := none } }
    tokenizer := some tokBos3 }

/-- A concrete decoder-only preprocessor configured with no tokenizer
(`skip_tokenizer_init`). -/
def preNoTok : InputPreprocessor :=
  { model_config := { is_encoder_decoder_model := false
                      hf_config := none }
    tokenizer := none }

/-- A concrete non-null side-channel (multi-modal) payload. -/
def mmPayload : MultiModalDataDict := ([("image", 1)] : List (String × Nat))

/-- A text/str prompt classifier used to state claims about text prompts. -/
def is_text_prompt : SingletonPrompt → Bool
  | .str _ => true
  | .text _ _ _ => true
  | .tokens _ _ _ => false

/-- The token-id sequence field of either shape of normalized request. -/
def llm_inputs_token_ids : LLMInputs → Option (List Int)
  | .decoderOnly i => i.prompt_token_ids
  | .encoderDecoder i => i.prompt_token_ids

/-- The multi-modal payload carried by a singleton prompt, as extraction
threads it through (plain-string prompts carry none). -/
def singleton_mm_data : SingletonPrompt → Option MultiModalDataDict
  | .str _ => none
  | .tokens _ mm _ => mm
  | .text _ mm _ => mm

/-! ## Claim theorems -/

/-- **C3**: For every decoder token-id sequence `d` and resolved decoder-start
token id `s`, synthesis with `force_bos = true` returns `[s] ++ d` when `d` is
empty or `d`'s first element differs from `s`, and returns `d` unchanged when
`d`'s first element equals `s`. -/
theorem C3_synthesis_force_bos (pre : InputPreprocessor) (d : List Int)
    (s : Int) (hs : get_decoder_start_token_id pre = some s) :
    prepare_decoder_input_ids_for_generation pre (some d) true =
      .ok (if d.head? = some s then d else s :: d) := by
  unfold prepare_decoder_input_ids_for_generation
  rw [hs]
  cases d with
  | nil => simp
  | cons a t =>
    by_cases h : a = s
    · subst h
      simp
    · simp [h]

/-- Witness for C3: with resolved decoder-start id `5`, synthesis maps
`[1, 2]` to `[5, 1, 2]` and leaves `[5, 1, 2]` unchanged. -/
theorem C3_synthesis_force_bos_witness :
    prepare_decoder_input_ids_for_generation preDec5 (some [1, 2]) true =
      .ok [5, 1, 2] ∧
    prepare_decoder_input_ids_for_generation preDec5 (some [5, 1, 2]) true =
      .ok [5, 1, 2] := by
  constructor
  · have h := C3_synthesis_force_bos preDec5 [1, 2] 5 rfl
    simpa using h
  · have h := C3_synthesis_force_bos preDec5 [5, 1, 2] 5 rfl
    simpa using h

/-- **C8**: Splicing prepends `N` zero placeholder tokens when a
prompt-adapter with virtual-token count `N` is attached, is the identity when
none is attached (hence a no-op at count zero), never fails, and with count 3
on decoder-only token ids `[7, 8]` assembly yields `[0, 0, 0, 7, 8]`. -/
theorem C8_adapter_splice :
    (∀ (ids : List Int) (n : Nat),
        apply_prompt_adapter ids (some ⟨n⟩) = List.replicate n 0 ++ ids) ∧
    (∀ ids : List Int, apply_prompt_adapter ids none = ids) ∧
    (∀ ids : List Int, apply_prompt_adapter ids (some ⟨0⟩) = ids) ∧
    (build_decoder_only_llm_inputs (none, ([7, 8] : List Int), none, none)
        (some ⟨3⟩)).prompt_token_ids = some [0, 0, 0, 7, 8] := by
  refine ⟨fun ids n => rfl, fun ids => rfl, fun ids => ?_, rfl⟩
  simp [apply_prompt_adapter]

/-- **C4**: For every non-encoder/decoder model, both entry points reject an
explicit encoder/decoder pair with the incompatible-prompt-shape error, for
every request id, LoRA selector and prompt-adapter selector. -/
theorem C4_pair_rejected_for_decoder_only (pre : InputPreprocessor)
    (enc : SingletonPrompt) (dec : Option SingletonPrompt)
    (kw : Option MmKwargs) (request_id : String)
    (lora_request : Option LoRARequest)
    (prompt_adapter_request : Option PromptAdapterRequest)
    (h : is_encoder_decoder_model pre = false) :
    preprocess pre (.explicitPair enc dec kw) request_id lora_request
        prompt_adapter_request = .error .IncompatiblePromptShape ∧
    preprocess_async pre (.explicitPair enc dec kw) request_id lora_request
        prompt_adapter_request = .error .IncompatiblePromptShape := by
  constructor <;>
    simp [preprocess, preprocess_async, h, is_explicit_encoder_decoder_prompt]

/-- Witness for C4 at a concrete decoder-only preprocessor and pair prompt. -/
theorem C4_pair_rejected_for_decoder_only_witness :
    preprocess preDecOnly (.explicitPair (.str "a") none none) "r" none none =
        .error .IncompatiblePromptShape ∧
    preprocess_async preDecOnly (.explicitPair (.str "a") none none) "r" none
        none = .error .IncompatiblePromptShape :=
  C4_pair_rejected_for_decoder_only preDecOnly (.str "a") none none "r" none
    none rfl

/-- **C5**: Whenever the decoder-side components carry a non-null side-channel
payload, encoder/decoder assembly fails with the multi-modal-decoder error —
for every preprocessor (even one on which decoder-prompt synthesis itself
would fail), every encoder component tuple, every decoder text/ids/options and
every processor-option mapping, so the failure precedes any synthesis. -/
theorem C5_decoder_mm_rejected (pre : InputPreprocessor)
    (encoder_comps : PromptComponents) (dt : Option String)
    (dids : Option (List Int)) (dmm : MultiModalDataDict)
    (dkw : Option MmKwargs) (kw : MmKwargs) :
    build_enc_dec_llm_inputs pre encoder_comps (dt, dids, some dmm, dkw) kw =
      .error .UnsupportedMultiModalDecoderInput := by
  obtain ⟨ep, eids, emm, ekw⟩ := encoder_comps
  simp [build_enc_dec_llm_inputs]

/-- **C6**: With no tokenizer configured, extracting any text prompt (plain
string or text-with-metadata) fails with the tokenizer-unavailable error, in
both the blocking and the suspendable form. -/
theorem C6_text_prompt_needs_tokenizer (mc : ModelConfig) (p : SingletonPrompt)
    (request_id : String) (lora_request : Option LoRARequest)
    (h : is_text_prompt p = true) :
    extract_prompt_components ⟨mc, none⟩ p request_id lora_request =
        .error .TokenizerUnavailable ∧
    extract_prompt_components_async ⟨mc, none⟩ p request_id lora_request =
        .error .TokenizerUnavailable := by
  cases p with
  | str s =>
      constructor <;>
        simp [extract_prompt_components, extract_prompt_components_async,
          tokenize_prompt, tokenize_prompt_async, get_tokenizer_group]
  | tokens ids mm kw => simp [is_text_prompt] at h
  | text t mm kw =>
      constructor <;>
        simp [extract_prompt_components, extract_prompt_components_async,
          tokenize_prompt, tokenize_prompt_async, get_tokenizer_group]

/-- Witness for C6 at a concrete tokenizer-less preprocessor and string
prompt. -/
theorem C6_text_prompt_needs_tokenizer_witness :
    extract_prompt_components ⟨preNoTok.model_config, none⟩ (.str "hi") "r"
        none = .error .TokenizerUnavailable ∧
    extract_prompt_components_async ⟨preNoTok.model_config, none⟩ (.str "hi")
        "r" none = .error .TokenizerUnavailable :=
  C6_text_prompt_needs_tokenizer preNoTok.model_config (.str "hi") "r" none rfl

/-- **C7**: Extraction of a pre-tokenized prompt returns its ids verbatim with
null display text and pass-through payload and options, for every
preprocessor — including one with no tokenizer at all, so no encode call can
be involved — in both the blocking and the suspendable form. -/
theorem C7_tokens_passthrough (pre : InputPreprocessor) (ids : List Int)
    (mm : Option MultiModalDataDict) (kw : Option MmKwargs)
    (request_id : String) (lora_request : Option LoRARequest) :
    extract_prompt_components pre (.tokens ids mm kw) request_id lora_request =
        .ok (none, ids, mm, kw) ∧
    extract_prompt_components_async pre (.tokens ids mm kw) request_id
        lora_request = .ok (none, ids, mm, kw) :=
  ⟨rfl, rfl⟩

/-- **C10**: For every encoder/decoder model, `preprocess` is independent of
the LoRA selector and the prompt-adapter selector, and factors through the
encoder/decoder path, which receives neither argument. -/
theorem C10_enc_dec_ignores_adapters (pre : InputPreprocessor)
    (prompt : PromptType) (request_id : String)
    (lora lora' : Option LoRARequest)
    (pa pa' : Option PromptAdapterRequest)
    (h : is_encoder_decoder_model pre = true) :
    preprocess pre prompt request_id lora pa =
        preprocess pre prompt request_id lora' pa' ∧
    preprocess pre prompt request_id lora pa =
      (process_encoder_decoder_prompt pre prompt request_id).map
        LLMInputs.encoderDecoder := by
  constructor
  · simp [preprocess, h]
  · simp only [preprocess, h, if_true]
    cases process_encoder_decoder_prompt pre prompt request_id <;> rfl

/-- Witness for C10: a concrete encoder/decoder run is unchanged when a LoRA
request and a prompt-adapter request are supplied. -/
theorem C10_enc_dec_ignores_adapters_witness :
    preprocess preEncDec7 (.singleton (.str "a")) "r" (some ⟨1⟩) (some ⟨4⟩) =
        preprocess preEncDec7 (.singleton (.str "a")) "r" none none ∧
    preprocess preEncDec7 (.singleton (.str "a")) "r" (some ⟨1⟩) (some ⟨4⟩) =
      (process_encoder_decoder_prompt preEncDec7 (.singleton (.str "a"))
        "r").map LLMInputs.encoderDecoder :=
  C10_enc_dec_ignores_adapters preEncDec7 (.singleton (.str "a")) "r"
    (some ⟨1⟩) none (some ⟨4⟩) none rfl

/-- Helper: a successful encoder/decoder assembly carries a non-null decoder
token-id sequence. -/
theorem build_enc_dec_ids_some (pre : InputPreprocessor)
    (e : PromptComponents) (d : DecoderPromptComponents) (kw : MmKwargs)
    (r : EncoderDecoderInputs)
    (h : build_enc_dec_llm_inputs pre e d kw = .ok r) :
    r.prompt_token_ids ≠ none := by
  obtain ⟨ep, eids, emm, ekw⟩ := e
  obtain ⟨dp, dids, dmm, dkw⟩ := d
  simp only [build_enc_dec_llm_inputs] at h
  split at h
  · simp at h
  · split at h
    · simp at h
    · simp only [Except.ok.injEq] at h
      rw [← h]
      simp

/-- Helper: decoder-only assembly always carries a non-null token-id
sequence. -/
theorem build_dec_only_ids_some (c : PromptComponents)
    (pa : Option PromptAdapterRequest) :
    (build_decoder_only_llm_inputs c pa).prompt_token_ids ≠ none := by
  obtain ⟨p, ids, mm, kw⟩ := c
  simp [build_decoder_only_llm_inputs]

/-- Helper: a successful blocking encoder/decoder processing run carries a
non-null decoder token-id sequence. -/
theorem process_enc_dec_ids_some (pre : InputPreprocessor)
    (prompt : PromptType) (request_id : String) (r : EncoderDecoderInputs)
    (h : process_encoder_decoder_prompt pre prompt request_id = .ok r) :
    r.prompt_token_ids ≠ none := by
  cases prompt with
  | singleton p =>
    simp only [process_encoder_decoder_prompt] at h
    split at h
    · simp at h
    · exact build_enc_dec_ids_some _ _ _ _ _ h
  | explicitPair enc dec kw =>
    cases dec with
    | none =>
      simp only [process_encoder_decoder_prompt] at h
      split at h
      · simp at h
      · exact build_enc_dec_ids_some _ _ _ _ _ h
    | some decoder_input =>
      simp only [process_encoder_decoder_prompt] at h
      split at h
      · simp at h
      · cases hx : extract_prompt_components pre decoder_input request_id none
            with
        | error err => rw [hx] at h; simp at h
        | ok dcomps =>
          obtain ⟨t, ids, mm, dkw⟩ := dcomps
          rw [hx] at h
          exact build_enc_dec_ids_some _ _ _ _ _ h

/-- Helper: the suspendable counterpart of `process_enc_dec_ids_some`. -/
theorem process_enc_dec_async_ids_some (pre : InputPreprocessor)
    (prompt : PromptType) (request_id : String) (r : EncoderDecoderInputs)
    (h : process_encoder_decoder_prompt_async pre prompt request_id = .ok r) :
    r.prompt_token_ids ≠ none := by
  cases prompt with
  | singleton p =>
    simp only [process_encoder_decoder_prompt_async] at h
    split at h
    · simp at h
    · exact build_enc_dec_ids_some _ _ _ _ _ h
  | explicitPair enc dec kw =>
    cases dec with
    | none =>
      simp only [process_encoder_decoder_prompt_async] at h
      cases hx : extract_prompt_components_async pre enc request_id none with
      | error err => rw [hx] at h; simp at h
      | ok ecomps => rw [hx] at h; simp at h
    | some decoder_input =>
      simp only [process_encoder_decoder_prompt_async] at h
      cases hx : extract_prompt_components_async pre enc request_id none with
      | error err => rw [hx] at h; simp at h
      | ok ecomps =>
        rw [hx] at h
        cases hy : extract_prompt_components_async pre decoder_input
            request_id none with
        | error err => rw [hy] at h; simp at h
        | ok dcomps =>
          obtain ⟨t, ids, mm, dkw⟩ := dcomps
          rw [hy] at h
          cases kw with
          | none => simp at h
          | some kwargs => exact build_enc_dec_ids_some _ _ _ _ _ h

/-- Helper: a successful blocking decoder-only processing run carries a
non-null token-id sequence. -/
theorem process_dec_only_ids_some (pre : InputPreprocessor)
    (p : SingletonPrompt) (request_id : String)
    (lora : Option LoRARequest) (pa : Option PromptAdapterRequest)
    (r : DecoderOnlyInputs)
    (h : process_decoder_only_prompt pre p request_id lora pa = .ok r) :
    r.prompt_token_ids ≠ none := by
  simp only [process_decoder_only_prompt] at h
  split at h
  · simp at h
  · simp only [Except.ok.injEq] at h
    rw [← h]
    exact build_dec_only_ids_some _ _

/-- Helper: the suspendable counterpart of `process_dec_only_ids_some`. -/
theorem process_dec_only_async_ids_some (pre : InputPreprocessor)
    (p : SingletonPrompt) (request_id : String)
    (lora : Option LoRARequest) (pa : Option PromptAdapterRequest)
    (r : DecoderOnlyInputs)
    (h : process_decoder_only_prompt_async pre p request_id lora pa = .ok r) :
    r.prompt_token_ids ≠ none := by
  simp only [process_decoder_only_prompt_async] at h
  split at h
  · simp at h
  · simp only [Except.ok.injEq] at h
    rw [← h]
    exact build_dec_only_ids_some _ _

/-- **C9**: Whenever either entry point succeeds, the returned normalized
request (of either shape) carries a non-null token-id sequence. -/
theorem C9_token_ids_never_null (pre : InputPreprocessor)
    (prompt : PromptType) (request_id : String)
    (lora : Option LoRARequest) (pa : Option PromptAdapterRequest)
    (r : LLMInputs)
    (h : preprocess pre prompt request_id lora pa = .ok r ∨
         preprocess_async pre prompt request_id lora pa = .ok r) :
    llm_inputs_token_ids r ≠ none := by
  rcases h with h | h
  · simp only [preprocess] at h
    split at h
    · split at h
      · simp at h
      · rename_i inputs heq
        simp only [Except.ok.injEq] at h
        rw [← h]
        simpa [llm_inputs_token_ids] using
          process_enc_dec_ids_some pre prompt request_id inputs heq
    · split at h
      · simp at h
      · split at h
        · split at h
          · simp at h
          · rename_i inputs heq
            simp only [Except.ok.injEq] at h
            rw [← h]
            simpa [llm_inputs_token_ids] using
              process_dec_only_ids_some _ _ _ _ _ _ heq
        · simp at h
  · simp only [preprocess_async] at h
    split at h
    · split at h
      · simp at h
      · rename_i inputs heq
        simp only [Except.ok.injEq] at h
        rw [← h]
        simpa [llm_inputs_token_ids] using
          process_enc_dec_async_ids_some pre prompt request_id inputs heq
    · split at h
      · simp at h
      · split at h
        · split at h
          · simp at h
          · rename_i inputs heq
            simp only [Except.ok.injEq] at h
            rw [← h]
            simpa [llm_inputs_token_ids] using
              process_dec_only_async_ids_some _ _ _ _ _ _ heq
        · simp at h

/-- Witness for C9 at a concrete successful run. -/
theorem C9_token_ids_never_null_witness :
    llm_inputs_token_ids
        (.decoderOnly { prompt_token_ids := some [11]
                        prompt := some "a"
                        multi_modal_data := none
                        mm_processor_kwargs := none }) ≠ none :=
  C9_token_ids_never_null preDecOnly (.singleton (.str "a")) "r" none none
    (.decoderOnly { prompt_token_ids := some [11]
                    prompt := some "a"
                    multi_modal_data := none
                    mm_processor_kwargs := none })
    (Or.inl rfl)

/-- Helper: extraction passes the singleton prompt's multi-modal payload
through unchanged. -/
theorem extract_mm_data (pre : InputPreprocessor) (p : SingletonPrompt)
    (request_id : String) (lora : Option LoRARequest)
    (comps : PromptComponents)
    (h : extract_prompt_components pre p request_id lora = .ok comps) :
    comps.2.2.1 = singleton_mm_data p := by
  cases p with
  | str s =>
    simp only [extract_prompt_components] at h
    split at h
    · simp at h
    · simp only [Except.ok.injEq] at h
      rw [← h]
      rfl
  | tokens ids mm kw =>
    simp only [extract_prompt_components, Except.ok.injEq] at h
    rw [← h]
    rfl
  | text t mm kw =>
    simp only [extract_prompt_components] at h
    split at h
    · simp at h
    · simp only [Except.ok.injEq] at h
      rw [← h]
      rfl

/-- Helper: synthesis from an absent decoder prompt under `force_bos` yields a
sequence starting with the resolved decoder-start token id. -/
theorem prepare_none_true_head (pre : InputPreprocessor) (s : Int)
    (ids : List Int) (hs : get_decoder_start_token_id pre = some s)
    (h : prepare_decoder_input_ids_for_generation pre none true = .ok ids) :
    ids.head? = some s := by
  cases hb : get_bos_token_id pre none with
  | none =>
    simp only [prepare_decoder_input_ids_for_generation, hs,
      get_default_enc_dec_decoder_prompt, hb] at h
    exact absurd h (by simp)
  | some b =>
    simp only [prepare_decoder_input_ids_for_generation, hs,
      get_default_enc_dec_decoder_prompt, hb] at h
    by_cases hbs : b = s
    · subst hbs
      simp only [List.length, List.head?] at h
      simp at h
      rw [← h]
      rfl
    · simp only [List.length, List.head?] at h
      simp [hbs] at h
      rw [← h]
      rfl

/-- Counterexample to C2 as stated: for an encoder/decoder model whose
resolved decoder-start id is 7 (BOS = 3), a singleton pre-tokenized prompt
carrying a multi-modal payload succeeds but yields decoder token ids `[3]`,
which do not begin with the resolved decoder-start id. -/
theorem C2_counterexample :
    is_encoder_decoder_model preEncDec7 = true ∧
    get_decoder_start_token_id preEncDec7 = some 7 ∧
    preprocess preEncDec7
        (.singleton (.tokens [4] (some mmPayload) none)) "r" none none =
      .ok (.encoderDecoder
        { prompt_token_ids := some [3]
          prompt := none
          multi_modal_data := none
          mm_processor_kwargs := emptyKwargs
          encoder_prompt_token_ids := some [4]
          encoder_prompt := none
          encoder_multi_modal_data := some mmPayload }) ∧
    ¬ ([3] : List Int).head? = some 7 := by
  refine ⟨rfl, rfl, rfl, by decide⟩

/-- **C2 (amended)**: For every encoder/decoder model and every singleton
prompt that carries no multi-modal payload, a successful `preprocess` returns
decoder token ids beginning with the resolved decoder-start token id; and
whenever the model configuration carries no `decoder_start_token_id`, the
resolved decoder-start id equals the BOS token id.  (The original claim,
quantified over all singleton prompts, fails on multi-modal singletons, where
the code deliberately leaves the default `[BOS]` decoder prompt unprefixed.) -/
theorem C2_amended_singleton_decoder_start (pre : InputPreprocessor)
    (p : SingletonPrompt) (request_id : String) (lora : Option LoRARequest)
    (pa : Option PromptAdapterRequest) (r : EncoderDecoderInputs) (s : Int)
    (henc : is_encoder_decoder_model pre = true)
    (hmm : singleton_mm_data p = none)
    (hs : get_decoder_start_token_id pre = some s)
    (hok : preprocess pre (.singleton p) request_id lora pa =
      .ok (.encoderDecoder r)) :
    (∃ ids, r.prompt_token_ids = some ids ∧ ids.head? = some s) ∧
    (∀ hf, pre.model_config.hf_config = some hf →
      hf.decoder_start_token_id = none →
      some s = get_bos_token_id pre none) := by
  constructor
  · simp only [preprocess, henc, if_true] at hok
    cases hz : process_encoder_decoder_prompt pre (.singleton p) request_id
        with
    | error e => rw [hz] at hok; simp at hok
    | ok ed =>
      rw [hz] at hok
      simp only [Except.ok.injEq, LLMInputs.encoderDecoder.injEq] at hok
      subst hok
      simp only [process_encoder_decoder_prompt] at hz
      cases hx : extract_prompt_components pre p request_id none with
      | error e => rw [hx] at hz; simp at hz
      | ok comps =>
        rw [hx] at hz
        obtain ⟨ct, cids, cmm, ckw⟩ := comps
        have hcm : cmm = none := by
          have hd := extract_mm_data pre p request_id none _ hx
          simpa [hmm] using hd
        subst hcm
        simp only [build_enc_dec_llm_inputs, Option.isSome_none,
          Option.isNone_none, Bool.and_self, Bool.false_eq_true,
          if_false] at hz
        cases hp : prepare_decoder_input_ids_for_generation pre none true with
        | error e => rw [hp] at hz; simp at hz
        | ok dec_ids =>
          rw [hp] at hz
          simp only [Except.ok.injEq] at hz
          rw [← hz]
          exact ⟨dec_ids, rfl, prepare_none_true_head pre s dec_ids hs hp⟩
  · intro hf hhf hnone
    simp only [get_decoder_start_token_id, henc, hhf, hnone] at hs
    simp at hs
    exact hs.symm

/-- Witness for the amended C2: concretely, the encoder/decoder model with
decoder-start id 7 and BOS 3, on the payload-free singleton `tokens [4]`,
returns decoder ids `[7, 3]`, which begin with 7. -/
theorem C2_amended_singleton_decoder_start_witness :
    (∃ ids,
        (some [7, 3] : Option (List Int)) = some ids ∧
          ids.head? = some (7 : Int)) ∧
    (∀ hf, preEncDec7.model_config.hf_config = some hf →
      hf.decoder_start_token_id = none →
      some (7 : Int) = get_bos_token_id preEncDec7 none) :=
  C2_amended_singleton_decoder_start preEncDec7 (.tokens [4] none none) "r"
    none none
    { prompt_token_ids := some [7, 3]
      prompt := none
      multi_modal_data := none
      mm_processor_kwargs := emptyKwargs
      encoder_prompt_token_ids := some [4]
      encoder_prompt := none
      encoder_multi_modal_data := none }
    7 rfl rfl rfl rfl

/-- **C1 (code bug)**: the blocking and suspendable entry points diverge on
explicit encoder/decoder pairs, although the suspendable method documents
itself as the async version of the blocking one.  With the decoder prompt
absent, the blocking form succeeds while the suspendable form fails with an
`UnboundLocalError` (its `mm_processor_kwargs` local is assigned on no path
that reaches the final call); with the decoder present but the
`mm_processor_kwargs` key missing, the blocking form defaults the options to
`{}` while the suspendable form fails with a `KeyError` from the direct
subscription `prompt["mm_processor_kwargs"]`. -/
theorem C1_sync_async_divergence :
    preprocess preEncDec7
        (.explicitPair (.tokens [1] none none) none none) "r" none none =
      .ok (.encoderDecoder
        { prompt_token_ids := some [7, 3]
          prompt := none
          multi_modal_data := none
          mm_processor_kwargs := emptyKwargs
          encoder_prompt_token_ids := some [1]
          encoder_prompt := none
          encoder_multi_modal_data := none }) ∧
    preprocess_async preEncDec7
        (.explicitPair (.tokens [1] none none) none none) "r" none none =
      .error .UnboundLocalMmKwargs ∧
    preprocess preEncDec7
        (.explicitPair (.tokens [1] none none) (some (.tokens [2] none none))
          none) "r" none none =
      .ok (.encoderDecoder
        { prompt_token_ids := some [7, 2]
          prompt := none
          multi_modal_data := none
          mm_processor_kwargs := emptyKwargs
          encoder_prompt_token_ids := some [1]
          encoder_prompt := none
          encoder_multi_modal_data := none }) ∧
    preprocess_async preEncDec7
        (.explicitPair (.tokens [1] none none) (some (.tokens [2] none none))
          none) "r" none none =
      .error .KeyErrorMmKwargs :=
  ⟨rfl, rfl, rfl, rfl⟩

end Preprocess
